import Mathlib

/- Verification of the MIMOSA equation blocks: the economic production block
   (src/model/components/cobbdouglas.py) and the COACCH damage block
   (src/model/components/damages/coacch.py).

   Real numbers model the floating-point arithmetic of the source.  Python
   operations that can raise are modelled as Except-valued functions: division
   raises ZeroDivisionError on a zero denominator, and an unrecognized damage
   functional-form tag raises NotImplementedError.  The shared Pyomo model
   object is modelled as a structure of parameters, exogenous trajectories and
   solver variables, indexed by time step and region (both as naturals); each
   generated constraint becomes a predicate on that structure. -/

set_option maxHeartbeats 1000000
set_option linter.unusedVariables false

namespace Mimosa

/-- Boolean test that the first character list starts with the second list
(helper for the model of the Python substring operator). -/
def startsWith : List Char → List Char → Bool
  | [], _ => true
  | _ :: _, [] => false
  | a :: as, b :: bs => a == b && startsWith as bs

/-- Boolean substring search on character lists (helper). -/
def subAux (needle : List Char) : List Char → Bool
  | [] => needle == []
  | c :: rest => startsWith needle (c :: rest) || subAux needle rest

/-- Model of the Python expression `needle in haystack` for strings:
substring containment. -/
def strContains (haystack needle : String) : Bool :=
  subAux needle.data haystack.data

/-- The shared model object `m`.  Scalar parameters, region-indexed parameters,
exogenous trajectories and the solver variables referenced by the two
constraint blocks, with the names used in the source. -/
structure ModelCtx where
  alpha : ℝ
  dk : ℝ
  sr : ℝ
  elasmu : ℝ
  disutility_dmg_factor : ℝ
  ignore_damages : Bool
  dt : ℝ
  init_capitalstock_factor : ℕ → ℝ
  year : ℕ → ℕ
  TFP : ℕ → ℕ → ℝ
  L : ℕ → ℕ → ℝ
  GDP : ℕ → ℕ → ℝ
  temperature : ℕ → ℝ
  total_SLR : ℕ → ℝ
  T0 : ℝ
  abatement_costs : ℕ → ℕ → ℝ
  capital_stock : ℕ → ℕ → ℝ
  GDP_gross : ℕ → ℕ → ℝ
  GDP_net : ℕ → ℕ → ℝ
  investments : ℕ → ℕ → ℝ
  consumption : ℕ → ℕ → ℝ
  utility : ℕ → ℕ → ℝ
  GDP_less_mit : ℕ → ℕ → ℝ
  utility_less_mit : ℕ → ℕ → ℝ
  utility_original : ℕ → ℕ → ℝ
  damage_scale_factor : ℝ
  damage_costs : ℕ → ℕ → ℝ
  resid_damages : ℕ → ℕ → ℝ
  SLR_damages : ℕ → ℕ → ℝ
  damage_noslr_form : ℕ → String
  damage_noslr_b1 : ℕ → ℝ
  damage_noslr_b2 : ℕ → ℝ
  damage_noslr_b3 : ℕ → ℝ
  damage_noslr_a : ℕ → ℝ
  damage_slr_form : ℕ → String
  damage_slr_b1 : ℕ → ℝ
  damage_slr_b2 : ℕ → ℝ
  damage_slr_b3 : ℕ → ℝ
  damage_slr_a : ℕ → ℝ

/-- Modelled from the spec: `soft_min` lives in `model.common`, which is not
under `src/`.  The spec describes it as a smooth floor keeping its argument
above (approximately) zero; the smooth formula is not given, so it is modelled
as the hard floor at zero.  The `scale` argument (softness) is kept for
signature fidelity. -/
noncomputable def soft_min (x scale : ℝ) : ℝ := max x 0

/-- Modelled from the spec: `soft_max` lives in `model.common`, which is not
under `src/`.  The spec describes it as a smooth cap bounding its argument
above by `maxval` (used to bound the logistic exponent at 10 and avoid
exponential overflow); modelled as the hard cap `min x maxval`. -/
noncomputable def soft_max (x maxval scale : ℝ) : ℝ := min x maxval

/-- Model of Python real division, which raises ZeroDivisionError when the
denominator is zero. -/
noncomputable def pydiv (a b : ℝ) : Except String ℝ :=
  if b = 0 then Except.error "ZeroDivisionError" else Except.ok (a / b)

/-- Translation of `logistic(x, b1, b2, b3)` from coacch.py:
the exponent is bounded by `soft_max(-b3*x, 10, scale=0.1)` and the
normalization term `b1/(1+b2)` is subtracted. -/
noncomputable def logistic (x b1 b2 b3 : ℝ) : Except String ℝ := do
  let exponent := soft_max (-b3 * x) 10 0.1
  let t1 ← pydiv b1 (1 + b2 * Real.exp exponent)
  let t2 ← pydiv b1 (1 + b2)
  pure (t1 - t2)

/-- Selection of the functional-form tag used by `functional_form`
(the `if is_slr: ... else: ...` block of coacch.py). -/
def form_sel (m : ModelCtx) (r : ℕ) (is_slr : Bool) : String :=
  if is_slr then m.damage_slr_form r else m.damage_noslr_form r

/-- Selection of the coefficient `b1` used by `functional_form`. -/
noncomputable def b1_sel (m : ModelCtx) (r : ℕ) (is_slr : Bool) : ℝ :=
  if is_slr then m.damage_slr_b1 r else m.damage_noslr_b1 r

/-- Selection of the coefficient `b2` used by `functional_form`. -/
noncomputable def b2_sel (m : ModelCtx) (r : ℕ) (is_slr : Bool) : ℝ :=
  if is_slr then m.damage_slr_b2 r else m.damage_noslr_b2 r

/-- Selection of the coefficient `b3` used by `functional_form`. -/
noncomputable def b3_sel (m : ModelCtx) (r : ℕ) (is_slr : Bool) : ℝ :=
  if is_slr then m.damage_slr_b3 r else m.damage_noslr_b3 r

/-- Selection of the damage-quantile scale `a` used by `functional_form`. -/
noncomputable def a_sel (m : ModelCtx) (r : ℕ) (is_slr : Bool) : ℝ :=
  if is_slr then m.damage_slr_a r else m.damage_noslr_a r

/-- Translation of `functional_form(x, m, r, is_slr)` from coacch.py:
substring dispatch, in order, on "Linear", "Quadratic", "Logistic";
any other tag raises NotImplementedError. -/
noncomputable def functional_form (x : ℝ) (m : ModelCtx) (r : ℕ) (is_slr : Bool) :
    Except String ℝ :=
  if strContains (form_sel m r is_slr) "Linear" then
    Except.ok (a_sel m r is_slr * b1_sel m r is_slr * x / 100)
  else if strContains (form_sel m r is_slr) "Quadratic" then
    Except.ok (a_sel m r is_slr * (b1_sel m r is_slr * x + b2_sel m r is_slr * x ^ 2) / 100)
  else if strContains (form_sel m r is_slr) "Logistic" then
    (logistic x (b1_sel m r is_slr) (b2_sel m r is_slr) (b3_sel m r is_slr)).map
      (fun v => a_sel m r is_slr * v / 100)
  else
    Except.error "NotImplementedError"

/-- Translation of `damage_fct(x, x0, m, r, is_slr)` from coacch.py:
evaluate the functional form at `x` and, when an anchor `x0` is given,
subtract its value at `x0`. -/
noncomputable def damage_fct (x : ℝ) (x0 : Option ℝ) (m : ModelCtx) (r : ℕ)
    (is_slr : Bool) : Except String ℝ := do
  let damage ← functional_form x m r is_slr
  match x0 with
  | none => pure damage
  | some x0v =>
      let d0 ← functional_form x0v m r is_slr
      pure (damage - d0)

/-- The "resid_damages" regional constraint of coacch.py:
`m.resid_damages[t,r] == damage_fct(m.temperature[t], m.T0, m, r, is_slr=False)`. -/
def resid_damages_constraint (m : ModelCtx) : Prop :=
  ∀ t r, Except.ok (m.resid_damages t r) = damage_fct (m.temperature t) (some m.T0) m r false

/-- The "SLR_damages" regional constraint of coacch.py:
`m.SLR_damages[t,r] == damage_fct(m.total_SLR[t], None, m, r, is_slr=True)`. -/
def SLR_damages_constraint (m : ModelCtx) : Prop :=
  ∀ t r, Except.ok (m.SLR_damages t r) = damage_fct (m.total_SLR t) none m r true

/-- The "damage_costs" regional constraint of coacch.py:
`m.damage_costs[t,r] == m.resid_damages[t,r] + m.SLR_damages[t,r]`. -/
def damage_costs_constraint (m : ModelCtx) : Prop :=
  ∀ t r, m.damage_costs t r = m.resid_damages t r + m.SLR_damages t r

/-- Statement of the residual-damage equation in the words of the spec:
the region's functional form evaluated on the temperature trajectory,
anchored by subtracting its value at the pre-industrial reference `T0`. -/
def resid_damages_spec (m : ModelCtx) : Prop :=
  ∀ t r, Except.ok (m.resid_damages t r) =
    (do
      let fT ← functional_form (m.temperature t) m r false
      let fT0 ← functional_form m.T0 m r false
      pure (fT - fT0) : Except String ℝ)

/-- Statement of the SLR-damage equation in the words of the spec:
the functional form evaluated on the sea-level-rise trajectory with no
anchor subtracted. -/
def SLR_damages_spec (m : ModelCtx) : Prop :=
  ∀ t r, Except.ok (m.SLR_damages t r) = functional_form (m.total_SLR t) m r true

/-- Statement of the total-damage equation in the words of the spec:
total damage cost is residual plus SLR damage. -/
def damage_total_spec (m : ModelCtx) : Prop :=
  ∀ t r, m.damage_costs t r = m.resid_damages t r + m.SLR_damages t r

/-- Modelled from the spec: `economics.calc_GDP` lives in `model.common`,
which is not under `src/`.  Cobb-Douglas production: TFP times capital and
labor raised to elasticities `alpha` and `1 - alpha`. -/
noncomputable def calc_GDP (tfp pop capital alpha : ℝ) : ℝ :=
  tfp * capital ^ alpha * pop ^ (1 - alpha)

/-- Modelled from the spec: `economics.calc_dKdt` lives in `model.common`,
which is not under `src/`.  Standard net-investment rate `dK/dt = I - dk*K`
(the `dt` argument is kept for signature fidelity with the source call). -/
noncomputable def calc_dKdt (capital dk investment dt : ℝ) : ℝ :=
  investment - dk * capital

/-- Translation of `calc_utility(consumption, population, elasmu)` from
cobbdouglas.py: isoelastic utility of smoothly floored per-capita consumption,
`(soft_min(c/L)^(1-elasmu) - 1)/(1-elasmu) - 1`, with both Python divisions
modelled as fallible. -/
noncomputable def calc_utility (consumption population elasmu : ℝ) :
    Except String ℝ := do
  let percap ← pydiv consumption population
  let frac ← pydiv (soft_min percap 1 ^ (1 - elasmu) - 1) (1 - elasmu)
  pure (frac - 1)

/-- The initializer of the `capital_stock` variable in cobbdouglas.py:
`init_capitalstock_factor[r] * GDP(year(t), r)`. -/
noncomputable def capital_stock_init_value (m : ModelCtx) (t r : ℕ) : ℝ :=
  m.init_capitalstock_factor r * m.GDP (m.year t) r

/-- The "GDP_gross" regional constraint of cobbdouglas.py:
Cobb-Douglas output with the capital stock floored by `soft_min(·, scale=10)`. -/
def GDP_gross_constraint (m : ModelCtx) : Prop :=
  ∀ t r, m.GDP_gross t r =
    calc_GDP (m.TFP (m.year t) r) (m.L (m.year t) r)
      (soft_min (m.capital_stock t r) 10) m.alpha

/-- The "GDP_net" regional constraint of cobbdouglas.py:
`GDP_net == GDP_gross * (1 - (damage_costs if not ignore_damages else 0))
- abatement_costs`. -/
def GDP_net_constraint (m : ModelCtx) : Prop :=
  ∀ t r, m.GDP_net t r =
    m.GDP_gross t r * (1 - (if !m.ignore_damages then m.damage_costs t r else 0))
      - m.abatement_costs t r

/-- The "GDP_less_mit" regional constraint of cobbdouglas.py:
gross output minus abatement costs, damages excluded. -/
def GDP_less_mit_constraint (m : ModelCtx) : Prop :=
  ∀ t r, m.GDP_less_mit t r = m.GDP_gross t r - m.abatement_costs t r

/-- The "investments" regional constraint of cobbdouglas.py:
`investments == sr * GDP_net`. -/
def investments_constraint (m : ModelCtx) : Prop :=
  ∀ t r, m.investments t r = m.sr * m.GDP_net t r

/-- The "consumption" regional constraint of cobbdouglas.py:
`consumption == (1 - sr) * GDP_net`. -/
def consumption_constraint (m : ModelCtx) : Prop :=
  ∀ t r, m.consumption t r = (1 - m.sr) * m.GDP_net t r

/-- The "utility_less_mitigation_costs" regional constraint of cobbdouglas.py:
`utility_less_mit == calc_utility((1-sr)*GDP_less_mit, L, elasmu)`. -/
def utility_less_mit_constraint (m : ModelCtx) : Prop :=
  ∀ t r, calc_utility ((1 - m.sr) * m.GDP_less_mit t r) (m.L (m.year t) r) m.elasmu =
    Except.ok (m.utility_less_mit t r)

/-- The "utility_original" regional constraint of cobbdouglas.py:
`utility_original == calc_utility(consumption, L, elasmu)`. -/
def utility_original_constraint (m : ModelCtx) : Prop :=
  ∀ t r, calc_utility (m.consumption t r) (m.L (m.year t) r) m.elasmu =
    Except.ok (m.utility_original t r)

/-- The "utility" regional constraint of cobbdouglas.py:
`utility == utility_less_mit - disutility_dmg_factor * (utility_less_mit -
utility_original)`. -/
def utility_constraint (m : ModelCtx) : Prop :=
  ∀ t r, m.utility t r =
    m.utility_less_mit t r -
      m.disutility_dmg_factor * (m.utility_less_mit t r - m.utility_original t r)

/-- The body of the "capital_stock" regional constraint of cobbdouglas.py at one
index: the discretized accumulation equation for `t > 0`, and `Constraint.Skip`
(no requirement) at `t = 0`. -/
def capital_stock_rec (m : ModelCtx) (t r : ℕ) : Prop :=
  if t > 0 then
    m.capital_stock t r =
      m.capital_stock (t - 1) r +
        m.dt * calc_dKdt (m.capital_stock t r) m.dk (m.investments t r) m.dt
  else True

/-- The "capital_stock" regional constraint of cobbdouglas.py over all indices. -/
def capital_stock_constraint (m : ModelCtx) : Prop :=
  ∀ t r, capital_stock_rec m t r

/-- The regional initialization constraint of cobbdouglas.py:
`capital_stock[0,r] == init_capitalstock_factor[r] * GDP(year(0), r)`. -/
def capital_stock_init_constraint (m : ModelCtx) : Prop :=
  ∀ r, m.capital_stock 0 r = m.init_capitalstock_factor r * m.GDP (m.year 0) r

/-- Helper: binding a successful Except value applies the continuation. -/
theorem exceptBindOk {α β : Type} (a : α) (f : α → Except String β) :
    (Except.ok a : Except String α) >>= f = f a := rfl

/-- Helper: binding a failed Except value propagates the error. -/
theorem exceptBindErr {α β : Type} (e : String) (f : α → Except String β) :
    (Except.error e : Except String α) >>= f = Except.error e := rfl

/-- Helper: evaluating `damage_fct` with no anchor is just the functional form. -/
theorem damage_fct_none (x : ℝ) (m : ModelCtx) (r : ℕ) (slr : Bool) :
    damage_fct x none m r slr = functional_form x m r slr := by
  unfold damage_fct
  cases h : functional_form x m r slr <;> simp [h]

/-- Concrete all-zero model context shared by the witness theorems: every
numeric series is zero, the form tags are "Linear", and damages are not
ignored. -/
noncomputable def baseCtx : ModelCtx where
  alpha := 0
  dk := 0
  sr := 0
  elasmu := 0
  disutility_dmg_factor := 0
  ignore_damages := false
  dt := 0
  init_capitalstock_factor := fun _ => 0
  year := fun t => t
  TFP := fun _ _ => 0
  L := fun _ _ => 0
  GDP := fun _ _ => 0
  temperature := fun _ => 0
  total_SLR := fun _ => 0
  T0 := 0
  abatement_costs := fun _ _ => 0
  capital_stock := fun _ _ => 0
  GDP_gross := fun _ _ => 0
  GDP_net := fun _ _ => 0
  investments := fun _ _ => 0
  consumption := fun _ _ => 0
  utility := fun _ _ => 0
  GDP_less_mit := fun _ _ => 0
  utility_less_mit := fun _ _ => 0
  utility_original := fun _ _ => 0
  damage_scale_factor := 0
  damage_costs := fun _ _ => 0
  resid_damages := fun _ _ => 0
  SLR_damages := fun _ _ => 0
  damage_noslr_form := fun _ => "Linear"
  damage_noslr_b1 := fun _ => 0
  damage_noslr_b2 := fun _ => 0
  damage_noslr_b3 := fun _ => 0
  damage_noslr_a := fun _ => 0
  damage_slr_form := fun _ => "Linear"
  damage_slr_b1 := fun _ => 0
  damage_slr_b2 := fun _ => 0
  damage_slr_b3 := fun _ => 0
  damage_slr_a := fun _ => 0

/-- C1: the damage block's three constraints state exactly that residual
damages are the region's functional form at the temperature anchored by
subtracting its value at `T0`, SLR damages are the functional form at total
SLR with no anchor subtracted, and total damage cost is their sum. -/
theorem C1_damage_constraints_exact (m : ModelCtx) :
    (resid_damages_constraint m ∧ SLR_damages_constraint m ∧ damage_costs_constraint m) ↔
      (resid_damages_spec m ∧ SLR_damages_spec m ∧ damage_total_spec m) := by
  constructor
  · rintro ⟨h1, h2, h3⟩
    exact ⟨fun t r => h1 t r, fun t r => (h2 t r).trans (damage_fct_none _ m r true), h3⟩
  · rintro ⟨h1, h2, h3⟩
    exact ⟨fun t r => h1 t r, fun t r => (h2 t r).trans (damage_fct_none _ m r true).symm, h3⟩

/-- C2: the investments and consumption constraints imply that investments
plus consumption equals net GDP, for any savings rate. -/
theorem C2_investment_consumption_partition (m : ModelCtx)
    (h1 : investments_constraint m) (h2 : consumption_constraint m) :
    ∀ t r, m.investments t r + m.consumption t r = m.GDP_net t r := by
  intro t r
  rw [h1 t r, h2 t r]
  ring

/-- Witness for C2 at the all-zero context. -/
theorem C2_witness :
    baseCtx.investments 0 0 + baseCtx.consumption 0 0 = baseCtx.GDP_net 0 0 :=
  C2_investment_consumption_partition baseCtx
    (fun t r => by simp [baseCtx]) (fun t r => by simp [baseCtx]) 0 0

/-- C3: the utility constraint blends the two counterfactual utilities;
with blend factor 0 utility equals `utility_less_mit`, with factor 1 it
equals `utility_original`. -/
theorem C3_utility_blend (m : ModelCtx) (h : utility_constraint m) :
    (∀ t r, m.utility t r = m.utility_less_mit t r -
        m.disutility_dmg_factor * (m.utility_less_mit t r - m.utility_original t r)) ∧
      (m.disutility_dmg_factor = 0 → ∀ t r, m.utility t r = m.utility_less_mit t r) ∧
      (m.disutility_dmg_factor = 1 → ∀ t r, m.utility t r = m.utility_original t r) := by
  refine ⟨h, fun h0 t r => ?_, fun h1 t r => ?_⟩
  · rw [h t r, h0]; ring
  · rw [h t r, h1]; ring

/-- Witness for C3 at the all-zero context, whose blend factor is 0. -/
theorem C3_witness : baseCtx.utility 0 0 = baseCtx.utility_less_mit 0 0 :=
  (C3_utility_blend baseCtx (fun t r => by simp [baseCtx])).2.1 rfl 0 0

/-- C4: with `ignore_damages` set, the GDP_net constraint says net GDP is
gross GDP minus abatement costs, and the constraint is unchanged by replacing
the damage-cost series with any other series. -/
theorem C4_ignore_damages (m : ModelCtx) (hig : m.ignore_damages = true) :
    (GDP_net_constraint m →
        ∀ t r, m.GDP_net t r = m.GDP_gross t r - m.abatement_costs t r) ∧
      (∀ d, GDP_net_constraint { m with damage_costs := d } ↔ GDP_net_constraint m) := by
  constructor
  · intro hc t r
    have h := hc t r
    rw [hig] at h
    simpa using h
  · intro d
    unfold GDP_net_constraint
    simp [hig]

/-- Context with damages ignored, for the C4 witness. -/
noncomputable def ctxIgnore : ModelCtx := { baseCtx with ignore_damages := true }

/-- Witness for C4 at an all-zero context with damages ignored. -/
theorem C4_witness :
    ctxIgnore.GDP_net 0 0 = ctxIgnore.GDP_gross 0 0 - ctxIgnore.abatement_costs 0 0 :=
  (C4_ignore_damages ctxIgnore rfl).1
    (fun t r => by simp [ctxIgnore, baseCtx]) 0 0

/-- C5: every recognized damage functional form evaluates to exactly zero at
input 0: the Linear and Quadratic branches unconditionally, and the Logistic
branch whenever its normalization denominator `1 + b2` is nonzero (when it is
zero the form is undefined at every input, a ZeroDivisionError). -/
theorem C5_forms_zero_at_zero (m : ModelCtx) (r : ℕ) (slr : Bool) :
    ((strContains (form_sel m r slr) "Linear" = true ∨
        strContains (form_sel m r slr) "Quadratic" = true) →
      functional_form 0 m r slr = Except.ok 0) ∧
      ((strContains (form_sel m r slr) "Logistic" = true ∧ 1 + b2_sel m r slr ≠ 0) →
        functional_form 0 m r slr = Except.ok 0) := by
  have hexp : soft_max 0 10 0.1 = 0 := by
    norm_num [soft_max, min_def]
  constructor
  · intro h
    by_cases hL : strContains (form_sel m r slr) "Linear" = true
    · simp [functional_form, hL]
    · have hQ : strContains (form_sel m r slr) "Quadratic" = true :=
        h.resolve_left hL
      rw [Bool.not_eq_true] at hL
      simp [functional_form, hL, hQ]
  · rintro ⟨hLo, hb⟩
    by_cases hL : strContains (form_sel m r slr) "Linear" = true
    · simp [functional_form, hL]
    · rw [Bool.not_eq_true] at hL
      by_cases hQ : strContains (form_sel m r slr) "Quadratic" = true
      · simp [functional_form, hL, hQ]
      · rw [Bool.not_eq_true] at hQ
        simp [functional_form, hL, hQ, hLo, logistic, hexp, Real.exp_zero, pydiv,
          hb, exceptBindOk, Except.map]

/-- Witness for C5 at the all-zero context, whose form tag is "Linear". -/
theorem C5_witness : functional_form 0 baseCtx 0 false = Except.ok 0 :=
  (C5_forms_zero_at_zero baseCtx 0 false).1 (Or.inl (by decide))

/-- C6: given the regional initialization constraint, the initial capital
stock equals the value declared by the variable initializer (the two
declarations of the base case agree), and the general recurrence constraint
imposes nothing at time 0 (it is skipped there), so no contradiction arises. -/
theorem C6_capital_init_agreement (m : ModelCtx)
    (h : capital_stock_init_constraint m) :
    (∀ r, m.capital_stock 0 r = capital_stock_init_value m 0 r) ∧
      (∀ r, capital_stock_rec m 0 r) := by
  refine ⟨fun r => ?_, fun r => ?_⟩
  · simpa [capital_stock_init_value] using h r
  · simp [capital_stock_rec]

/-- Witness for C6 at the all-zero context. -/
theorem C6_witness :
    baseCtx.capital_stock 0 0 = capital_stock_init_value baseCtx 0 0 ∧
      capital_stock_rec baseCtx 0 0 := by
  have h := C6_capital_init_agreement baseCtx (fun r => by simp [baseCtx])
  exact ⟨h.1 0, h.2 0⟩

/-- Context refuting C7 as stated: gross GDP is negative one, the damage-cost
share is one, net GDP and abatement are zero. -/
noncomputable def ctxNegGross : ModelCtx :=
  { baseCtx with GDP_gross := fun _ _ => -1, damage_costs := fun _ _ => 1 }

/-- C7 counterexample: the GDP_net constraint holds, damage and abatement
costs are non-negative everywhere, yet net GDP strictly exceeds gross GDP at
time 0, region 0, because gross GDP is negative there.  The claim as stated
is therefore false without a sign assumption on gross GDP. -/
theorem C7_counterexample :
    GDP_net_constraint ctxNegGross ∧
      (∀ t r, 0 ≤ ctxNegGross.damage_costs t r) ∧
      (∀ t r, 0 ≤ ctxNegGross.abatement_costs t r) ∧
      ctxNegGross.GDP_gross 0 0 < ctxNegGross.GDP_net 0 0 := by
  refine ⟨fun t r => ?_, fun t r => ?_, fun t r => ?_, ?_⟩ <;>
    norm_num [GDP_net_constraint, ctxNegGross, baseCtx]

/-- C7 (amended): whenever damage costs, abatement costs and gross GDP are
all non-negative, the GDP_net constraint implies net GDP never exceeds gross
GDP. -/
theorem C7_net_le_gross_amended (m : ModelCtx) (hc : GDP_net_constraint m)
    (hd : ∀ t r, 0 ≤ m.damage_costs t r) (ha : ∀ t r, 0 ≤ m.abatement_costs t r)
    (hg : ∀ t r, 0 ≤ m.GDP_gross t r) :
    ∀ t r, m.GDP_net t r ≤ m.GDP_gross t r := by
  intro t r
  rw [hc t r]
  by_cases hig : m.ignore_damages = true
  · simp only [hig, Bool.not_true, Bool.false_eq_true, if_false]
    nlinarith [ha t r]
  · rw [Bool.not_eq_true] at hig
    simp only [hig, Bool.not_false, if_true]
    nlinarith [mul_nonneg (hg t r) (hd t r), ha t r]

/-- Witness for the amended C7 at the all-zero context. -/
theorem C7_witness : baseCtx.GDP_net 0 0 ≤ baseCtx.GDP_gross 0 0 :=
  C7_net_le_gross_amended baseCtx (fun t r => by simp [baseCtx])
    (fun t r => by simp [baseCtx]) (fun t r => by simp [baseCtx])
    (fun t r => by simp [baseCtx]) 0 0

/-- C8: when the form tag contains none of "Linear", "Quadratic", "Logistic",
`functional_form` is the NotImplementedError failure, not a value; and any
successful value comes from one of the three recognized forms — there is no
fallback. -/
theorem C8_unrecognized_form_error (x : ℝ) (m : ModelCtx) (r : ℕ) (slr : Bool) :
    (strContains (form_sel m r slr) "Linear" = false →
      strContains (form_sel m r slr) "Quadratic" = false →
      strContains (form_sel m r slr) "Logistic" = false →
      functional_form x m r slr = Except.error "NotImplementedError") ∧
      (∀ v, functional_form x m r slr = Except.ok v →
        strContains (form_sel m r slr) "Linear" = true ∨
        strContains (form_sel m r slr) "Quadratic" = true ∨
        strContains (form_sel m r slr) "Logistic" = true) := by
  constructor
  · intro hL hQ hLo
    simp [functional_form, hL, hQ, hLo]
  · intro v hv
    by_cases hL : strContains (form_sel m r slr) "Linear" = true
    · exact Or.inl hL
    · by_cases hQ : strContains (form_sel m r slr) "Quadratic" = true
      · exact Or.inr (Or.inl hQ)
      · by_cases hLo : strContains (form_sel m r slr) "Logistic" = true
        · exact Or.inr (Or.inr hLo)
        · rw [Bool.not_eq_true] at hL hQ hLo
          simp [functional_form, hL, hQ, hLo] at hv

/-- Context whose non-SLR form tag is the unrecognized "Cubic", for the C8
witness. -/
noncomputable def ctxCubic : ModelCtx :=
  { baseCtx with damage_noslr_form := fun _ => "Cubic" }

/-- Witness for C8: the tag "Cubic" yields the NotImplementedError failure. -/
theorem C8_witness :
    functional_form 1 ctxCubic 0 false = Except.error "NotImplementedError" :=
  (C8_unrecognized_form_error 1 ctxCubic 0 false).1 (by decide) (by decide) (by decide)

/-- C9: `calc_utility` divides by `1 - elasmu`; at `elasmu = 1` it is a
division by zero (a ZeroDivisionError) for every consumption and population,
and both utility constraints calling it become unsatisfiable. -/
theorem C9_elasmu_one_division_by_zero (m : ModelCtx) (h : m.elasmu = 1) :
    (∀ c p, calc_utility c p m.elasmu = Except.error "ZeroDivisionError") ∧
      ¬utility_less_mit_constraint m ∧ ¬utility_original_constraint m := by
  have key : ∀ c p : ℝ, calc_utility c p m.elasmu = Except.error "ZeroDivisionError" := by
    intro c p
    rw [h]
    unfold calc_utility
    by_cases hp : p = 0
    · simp [pydiv, hp, exceptBindOk, exceptBindErr]
    · simp [pydiv, hp, exceptBindOk, exceptBindErr]
  refine ⟨key, fun hc => ?_, fun hc => ?_⟩
  · have h00 := hc 0 0
    rw [key _ _] at h00
    exact Except.noConfusion h00
  · have h00 := hc 0 0
    rw [key _ _] at h00
    exact Except.noConfusion h00

/-- Context with `elasmu = 1` (the logarithmic limit), for the C9 witness. -/
noncomputable def ctxElasmuOne : ModelCtx := { baseCtx with elasmu := 1 }

/-- Witness for C9: at `elasmu = 1` the utility expression fails with a
division by zero and the two utility constraints cannot hold. -/
theorem C9_witness :
    calc_utility 3 2 ctxElasmuOne.elasmu = Except.error "ZeroDivisionError" ∧
      ¬utility_less_mit_constraint ctxElasmuOne ∧
      ¬utility_original_constraint ctxElasmuOne := by
  have h := C9_elasmu_one_division_by_zero ctxElasmuOne rfl
  exact ⟨h.1 3 2, h.2.1, h.2.2⟩

/-- C10: the damage-form dispatch tests substring containment in the fixed
order Linear, Quadratic, Logistic, raising only when none matches; a tag
containing several form names resolves to the first match in that order. -/
theorem C10_dispatch_order (x : ℝ) (m : ModelCtx) (r : ℕ) (slr : Bool) :
    (strContains (form_sel m r slr) "Linear" = true →
      functional_form x m r slr =
        Except.ok (a_sel m r slr * b1_sel m r slr * x / 100)) ∧
      (strContains (form_sel m r slr) "Linear" = false →
        strContains (form_sel m r slr) "Quadratic" = true →
        functional_form x m r slr =
          Except.ok (a_sel m r slr *
            (b1_sel m r slr * x + b2_sel m r slr * x ^ 2) / 100)) ∧
      (strContains (form_sel m r slr) "Linear" = false →
        strContains (form_sel m r slr) "Quadratic" = false →
        strContains (form_sel m r slr) "Logistic" = true →
        functional_form x m r slr =
          (logistic x (b1_sel m r slr) (b2_sel m r slr) (b3_sel m r slr)).map
            (fun v => a_sel m r slr * v / 100)) ∧
      (strContains (form_sel m r slr) "Linear" = false →
        strContains (form_sel m r slr) "Quadratic" = false →
        strContains (form_sel m r slr) "Logistic" = false →
        functional_form x m r slr = Except.error "NotImplementedError") :=
  ⟨fun hL => by simp [functional_form, hL],
    fun hL hQ => by simp [functional_form, hL, hQ],
    fun hL hQ hLo => by simp [functional_form, hL, hQ, hLo],
    fun hL hQ hLo => by simp [functional_form, hL, hQ, hLo]⟩

/-- Context whose non-SLR form tag contains both "Linear" and "Quadratic",
for the C10 witness. -/
noncomputable def ctxLinQuad : ModelCtx :=
  { baseCtx with damage_noslr_form := fun _ => "LinearQuadratic" }

/-- Witness for C10: a tag containing both "Linear" and "Quadratic" resolves
to the Linear expression. -/
theorem C10_witness :
    strContains (form_sel ctxLinQuad 0 false) "Linear" = true ∧
      strContains (form_sel ctxLinQuad 0 false) "Quadratic" = true ∧
      functional_form 2 ctxLinQuad 0 false =
        Except.ok (a_sel ctxLinQuad 0 false * b1_sel ctxLinQuad 0 false * 2 / 100) :=
  ⟨by decide, by decide, (C10_dispatch_order 2 ctxLinQuad 0 false).1 (by decide)⟩

end Mimosa
